import Mathlib

/-!
Verification development for the AgentForge agent execution engine.

The repository ships the Next.js front end; the execution-engine core
(`app/services/agent_service.py`, `mcp_client.py`, `http_executor.py`,
`vector_store.py` of the FastAPI backend named in the README) is not part of
the available sources, so those components are modelled from the
specification.  The chat and agents pages are embedded from the front-end
sources directly.
-/

namespace AgentForge

/-! ## Template Engine (modelled from the spec, section 4.1)

Modelled from the spec: the backend HTTP executor / template engine
(`app/services/http_executor.py`) is missing from the sources.  Templates are
strings with `\x7b\x7bidentifier\x7d\x7d` placeholders, compiled against a
declared variable schema, and rendered by literal substitution. -/

/-- Declared kind of a template variable: `string | number | boolean`. -/
inductive Kind
  | string
  | number
  | boolean
deriving DecidableEq

/-- An argument value supplied for a variable. -/
inductive Value
  | vStr (s : String)
  | vNum (n : Int)
  | vBool (b : Bool)
deriving DecidableEq

/-- A declared variable: `{name, kind, required, default}`. -/
structure VarDecl where
  name : String
  kind : Kind
  required : Bool
  default : Option Value
deriving DecidableEq

/-- A parsed template segment: literal text or a placeholder. -/
inductive Seg
  | lit (text : List Char)
  | var (name : String)
deriving DecidableEq

/-- Template-engine validation errors (spec section 4.1 / 7). -/
inductive VError
  | SyntaxError
  | UnknownVariable (name : String)
  | MissingRequiredVariable (name : String)
  | TypeMismatch (name : String)
deriving DecidableEq

/-- Association lookup in a key-value list: first value whose key matches. -/
def assoc {α β : Type} [DecidableEq α] (key : α) : List (α × β) → Option β
  | [] => none
  | (k, v) :: rest => if k = key then some v else assoc key rest

/-- Characters allowed inside a placeholder identifier. -/
def isIdentChar (c : Char) : Bool :=
  c.isAlphanum || c = '_'

/-- Split off a maximal identifier from the head of a character list. -/
def takeIdent : List Char → (List Char × List Char)
  | [] => ([], [])
  | c :: rest =>
    if isIdentChar c then
      let p := takeIdent rest
      (c :: p.1, p.2)
    else ([], c :: rest)

/-- Fuel-driven scanner for `\x7b\x7bidentifier\x7d\x7d` placeholders.
Returns `none` on malformed placeholders (unclosed or empty identifier). -/
def parseAux (fuel : Nat) (acc : List Char) (cs : List Char) : Option (List Seg) :=
  match fuel with
  | 0 => none
  | fuel + 1 =>
    match cs with
    | '{' :: '{' :: rest =>
      let p := takeIdent rest
      if p.1.isEmpty then none
      else
        match p.2 with
        | '}' :: '}' :: rest2 =>
          (parseAux fuel [] rest2).map
            (fun segs => Seg.lit acc.reverse :: Seg.var (String.mk p.1) :: segs)
        | _ => none
    | c :: rest => parseAux fuel (c :: acc) rest
    | [] => some [Seg.lit acc.reverse]

/-- Parse a template into segments. -/
def parseTemplate (cs : List Char) : Option (List Seg) :=
  parseAux (cs.length + 1) [] cs

/-- The placeholders referenced by a template, in order of occurrence. -/
def referencedVars (segs : List Seg) : List String :=
  segs.filterMap fun s =>
    match s with
    | Seg.var n => some n
    | Seg.lit _ => none

/-- Look up a declared variable by name in the schema. -/
def lookupVar (schema : List VarDecl) (n : String) : Option VarDecl :=
  schema.find? (fun d => d.name == n)

/-- Look up a supplied argument value by variable name. -/
def lookupArg (args : List (String × Value)) (n : String) : Option Value :=
  (args.find? (fun p => p.1 == n)).map (fun p => p.2)

/-- First referenced placeholder that is not declared in the schema. -/
def firstUnknown (schema : List VarDecl) : List String → Option String
  | [] => none
  | n :: ns =>
    if (lookupVar schema n).isSome then firstUnknown schema ns else some n

/-- A compiled template: parsed segments, the schema it was validated
against, and the recorded set of required variables referenced. -/
structure CompiledTemplate where
  segs : List Seg
  schema : List VarDecl
  requiredReferenced : List String
deriving DecidableEq

/-- `compile(template, schema)`: parses placeholders, rejects any placeholder
not present in the schema (`UnknownVariable`), and records the required
variables referenced. -/
def compile (tpl : String) (schema : List VarDecl) : Except VError CompiledTemplate :=
  match parseTemplate tpl.data with
  | none => Except.error VError.SyntaxError
  | some segs =>
    match firstUnknown schema (referencedVars segs) with
    | some n => Except.error (VError.UnknownVariable n)
    | none =>
      Except.ok
        { segs := segs
          schema := schema
          requiredReferenced :=
            (referencedVars segs).filter fun n =>
              match lookupVar schema n with
              | some d => d.required
              | none => false }

/-- Numeric text: an optional minus sign followed by one or more digits. -/
def isNumericText (s : String) : Bool :=
  match s.data with
  | [] => false
  | '-' :: rest => !rest.isEmpty && rest.all Char.isDigit
  | l => l.all Char.isDigit

/-- Boolean text. -/
def isBooleanText (s : String) : Bool :=
  s == "true" || s == "false"

/-- Kind conformance: exact kind match, or coercion of numeric text to a
number and boolean text to a boolean (spec section 4.1). -/
def conforms : Value → Kind → Bool
  | Value.vStr _, Kind.string => true
  | Value.vNum _, Kind.number => true
  | Value.vBool _, Kind.boolean => true
  | Value.vStr s, Kind.number => isNumericText s
  | Value.vStr s, Kind.boolean => isBooleanText s
  | _, _ => false

/-- Literal text of a value, used for substitution. -/
def valueText : Value → String
  | Value.vStr s => s
  | Value.vNum n => toString n
  | Value.vBool true => "true"
  | Value.vBool false => "false"

/-- First declared variable that is required, has no default, and is absent
from the arguments (checked before type conformance). -/
def firstMissing (schema : List VarDecl) (args : List (String × Value)) : Option String :=
  (schema.find? fun d =>
      d.required && d.default.isNone && (lookupArg args d.name).isNone).map
    (fun d => d.name)

/-- First referenced variable whose supplied value does not conform to its
declared kind.  Arguments for unreferenced variables are ignored. -/
def firstTypeMismatch (schema : List VarDecl) (args : List (String × Value)) :
    List String → Option String
  | [] => none
  | n :: ns =>
    match lookupVar schema n with
    | none => firstTypeMismatch schema args ns
    | some d =>
      match lookupArg args n with
      | none => firstTypeMismatch schema args ns
      | some v =>
        if conforms v d.kind then firstTypeMismatch schema args ns else some n

/-- The value substituted for a declared placeholder: the supplied argument,
else the declared default, else the empty string.  `none` only for a
placeholder that is not declared in the schema (impossible after `compile`). -/
def resolveValue (schema : List VarDecl) (args : List (String × Value)) (n : String) :
    Option Value :=
  (lookupVar schema n).map fun d =>
    ((lookupArg args n).orElse fun _ => d.default).getD (Value.vStr "")

/-- Substitute one segment: literal text is copied verbatim; a resolvable
placeholder becomes the literal text of its value; an unresolvable one is
echoed back as placeholder text. -/
def renderSeg (schema : List VarDecl) (args : List (String × Value)) : Seg → String
  | Seg.lit cs => String.mk cs
  | Seg.var n =>
    match resolveValue schema args n with
    | some v => valueText v
    | none => "\x7b\x7b" ++ n ++ "\x7d\x7d"

/-- `render(compiled, arguments)`: fails with `MissingRequiredVariable`, then
`TypeMismatch`, otherwise substitutes every placeholder literally. -/
def render (ct : CompiledTemplate) (args : List (String × Value)) : Except VError String :=
  match firstMissing ct.schema args with
  | some n => Except.error (VError.MissingRequiredVariable n)
  | none =>
    match firstTypeMismatch ct.schema args (referencedVars ct.segs) with
    | some n => Except.error (VError.TypeMismatch n)
    | none => Except.ok (String.join (ct.segs.map (renderSeg ct.schema args)))

/-- Decidable mirror of claim C2's hypothesis on the arguments: every
required variable is supplied with a conformant value or has a default. -/
def requiredSatisfied (schema : List VarDecl) (args : List (String × Value)) : Bool :=
  schema.all fun d =>
    !d.required ||
      (match lookupArg args d.name with
       | some v => conforms v d.kind
       | none => false) ||
      d.default.isSome

/-! ## Remote Tool Client (modelled from the spec, section 4.3)

Modelled from the spec: the remote capability-server client
(`app/services/mcp_client.py`) is missing from the sources.  One client per
`serverId`; state machine `Disconnected / Handshaking / Connected / Degraded`;
`invoke` validates against the cached capability list, issues the request, and
classifies the reply.  The environment (wire replies, handshake outcomes) is
passed explicitly. -/

/-- Connection states of a remote server connection. -/
inductive ConnState
  | Disconnected
  | Handshaking
  | Connected
  | Degraded
deriving DecidableEq

/-- Cached input schema of a remote tool: the argument names it requires. -/
abbrev InputSchema := List String

/-- A remote tool client: one logical connection to a capability server. -/
structure RemoteToolClient where
  serverId : String
  state : ConnState
  capabilities : List (String × InputSchema)
deriving DecidableEq

/-- Failures a tool invocation can surface (spec section 7 taxonomy). -/
inductive ToolFailure
  | Timeout
  | ToolError (message : String)
  | ToolNotFound (name : String)
  | ValidationError (name : String)
  | ConnectionError
  | AuthError
deriving DecidableEq

/-- The remote server's behaviour on one `callTool` request. -/
inductive WireReply
  | result (v : Value)
  | toolError (message : String)
  | timeout
  | ioFailure
deriving DecidableEq

/-- The environment's behaviour on one `connect` handshake. -/
inductive ConnectOutcome
  | ok (caps : List (String × InputSchema))
  | authRefused
  | transportFailed
deriving DecidableEq

/-- Observable events of one client call: state entries and request sends. -/
inductive ClientEvent
  | entered (s : ConnState)
  | requestSent
deriving DecidableEq

/-- Result of one `invoke`: outcome, updated client, and the event trace. -/
structure InvokeResult where
  result : Except ToolFailure Value
  client : RemoteToolClient
  events : List ClientEvent

/-- `connect()`: transport handshake and authentication; on success the
client becomes `Connected` and caches the capability list; on failure it
falls back to `Disconnected` with `AuthError` or `ConnectionError`. -/
def connect (c : RemoteToolClient) (outcome : ConnectOutcome) :
    Except ToolFailure Unit × RemoteToolClient × List ClientEvent :=
  match outcome with
  | ConnectOutcome.ok caps =>
    (Except.ok (),
     { c with state := ConnState.Connected, capabilities := caps },
     [ClientEvent.entered ConnState.Handshaking, ClientEvent.entered ConnState.Connected])
  | ConnectOutcome.authRefused =>
    (Except.error ToolFailure.AuthError,
     { c with state := ConnState.Disconnected },
     [ClientEvent.entered ConnState.Handshaking, ClientEvent.entered ConnState.Disconnected])
  | ConnectOutcome.transportFailed =>
    (Except.error ToolFailure.ConnectionError,
     { c with state := ConnState.Disconnected },
     [ClientEvent.entered ConnState.Handshaking, ClientEvent.entered ConnState.Disconnected])

/-- Argument-shape validation against the cached input schema. -/
def validateArgs (schema : InputSchema) (args : List (String × Value)) : Bool :=
  schema.all fun n => (lookupArg args n).isSome

/-- One invocation on an already-`Connected` client: `ToolNotFound` and
`ValidationError` are raised with no network call; a timeout or transport
failure degrades the connection; an application-level `toolError` leaves it
`Connected`. -/
def invokeConnected (c : RemoteToolClient) (name : String)
    (args : List (String × Value)) (reply : WireReply) : InvokeResult :=
  match assoc name c.capabilities with
  | none => ⟨Except.error (ToolFailure.ToolNotFound name), c, []⟩
  | some schema =>
    if validateArgs schema args then
      match reply with
      | WireReply.result v => ⟨Except.ok v, c, [ClientEvent.requestSent]⟩
      | WireReply.toolError m =>
        ⟨Except.error (ToolFailure.ToolError m), c, [ClientEvent.requestSent]⟩
      | WireReply.timeout =>
        ⟨Except.error ToolFailure.Timeout,
         { c with state := ConnState.Degraded },
         [ClientEvent.requestSent, ClientEvent.entered ConnState.Degraded]⟩
      | WireReply.ioFailure =>
        ⟨Except.error ToolFailure.ConnectionError,
         { c with state := ConnState.Degraded },
         [ClientEvent.requestSent, ClientEvent.entered ConnState.Degraded]⟩
    else ⟨Except.error (ToolFailure.ValidationError name), c, []⟩

/-- `invoke(toolName, arguments)`: a client that is not `Connected`
(`Disconnected` or `Degraded`) first reconnects — passing through
`Handshaking` — before issuing the request. -/
def invoke (c : RemoteToolClient) (name : String) (args : List (String × Value))
    (connOut : ConnectOutcome) (reply : WireReply) : InvokeResult :=
  if c.state = ConnState.Connected then invokeConnected c name args reply
  else
    match connect c connOut with
    | (Except.ok _, c2, ev) =>
      let r := invokeConnected c2 name args reply
      ⟨r.result, r.client, ev ++ r.events⟩
    | (Except.error e, c2, ev) => ⟨Except.error e, c2, ev⟩

/-- Connection faults degrade the shared connection; application-level tool
errors do not (spec sections 4.3 and 7). -/
def isConnectionFault : ToolFailure → Bool
  | ToolFailure.ConnectionError => true
  | ToolFailure.AuthError => true
  | ToolFailure.Timeout => true
  | _ => false

/-- Failures that terminate the whole execution: only connection-fatal
conditions; tool-level failures are folded back into the conversation. -/
def fatalFailure : ToolFailure → Bool
  | ToolFailure.ConnectionError => true
  | ToolFailure.AuthError => true
  | _ => false

/-! ## Concurrent tool dispatch (modelled from the spec, sections 4.5 and 5)

Modelled from the spec: the orchestrator (`app/services/agent_service.py`) is
missing from the sources.  Tool calls requested within one model turn are
dispatched concurrently; completion order is an arbitrary permutation of the
request indices; the fan-in keys each completed result by its request index
and re-attaches results in request order. -/

/-- One tool call requested by the model. -/
structure ToolRequest where
  toolName : String
  arguments : List (String × Value)
deriving DecidableEq

/-- The completed calls in completion order: the environment's completion
order is any list of request indices; each completed call carries its request
index and the executor's outcome for that request. -/
def completeInOrder (reqs : List ToolRequest)
    (exec : ToolRequest → Except ToolFailure Value) (order : List Nat) :
    List (Nat × Except ToolFailure Value) :=
  order.filterMap fun i => (reqs[i]?).map fun r => (i, exec r)

/-- Fan-in: re-attach results keyed by request index, in request order. -/
def dispatchConcurrent (reqs : List ToolRequest)
    (exec : ToolRequest → Except ToolFailure Value) (order : List Nat) :
    List (Option (Except ToolFailure Value)) :=
  (List.range reqs.length).map fun i =>
    assoc i (completeInOrder reqs exec order)

/-! ## Tool Registry (modelled from the spec, section 4.4)

Modelled from the spec: registry construction lives in the missing backend
(`app/services/agent_service.py`).  `build` fails fast on duplicate tool
names and dangling references; `resolve` is a pure mapping lookup. -/

/-- HTTP endpoint configuration (spec section 3). -/
structure HttpEndpointConfig where
  method : String
  urlTemplate : String
  headerTemplates : List (String × String)
  bodyTemplate : Option String
  varDecls : List VarDecl
deriving DecidableEq

/-- The tagged tool backend variants. -/
inductive ToolBackend
  | VectorSearchTool (collectionId : String)
  | RemoteTool (serverId : String) (remoteName : String)
  | HttpTool (endpoint : HttpEndpointConfig)
deriving DecidableEq

/-- A declared tool of an agent. -/
structure ToolDescriptor where
  name : String
  backend : ToolBackend
deriving DecidableEq

/-- Orchestrator budgets (spec section 3). -/
structure AgentSettings where
  maxIterations : Nat
  perCallTimeoutMs : Nat
  totalTimeoutMs : Nat
deriving DecidableEq

/-- An agent definition: system prompt, declared tools, budgets. -/
structure AgentDefinition where
  systemPrompt : String
  tools : List ToolDescriptor
  settings : AgentSettings
deriving DecidableEq

/-- A tool bound to a live executor reference. -/
inductive ResolvedTool
  | vectorSearch (collectionId : String)
  | remote (client : RemoteToolClient) (remoteName : String)
  | http (method : String) (url : CompiledTemplate) (endpoint : HttpEndpointConfig)
deriving DecidableEq

/-- Registry construction errors. -/
inductive ConstructionError
  | DuplicateToolName (name : String)
  | UnknownServer (serverId : String)
  | InvalidTemplate (e : VError)
deriving DecidableEq

/-- Registry lookup error. -/
inductive ResolveError
  | ToolNotFound (name : String)
deriving DecidableEq

/-- A built registry: mapping from tool name to resolved backend. -/
abbrev Registry := List (String × ResolvedTool)

/-- First tool name that occurs twice in the list. -/
def firstDup : List String → Option String
  | [] => none
  | n :: ns => if n ∈ ns then some n else firstDup ns

/-- Bind one descriptor to a live executor reference; a `serverId` with no
known connection is a dangling reference. -/
def resolveBackend (connections : List (String × RemoteToolClient)) :
    ToolBackend → Except ConstructionError ResolvedTool
  | ToolBackend.VectorSearchTool cid => Except.ok (ResolvedTool.vectorSearch cid)
  | ToolBackend.RemoteTool sid rname =>
    match assoc sid connections with
    | some client => Except.ok (ResolvedTool.remote client rname)
    | none => Except.error (ConstructionError.UnknownServer sid)
  | ToolBackend.HttpTool cfg =>
    match compile cfg.urlTemplate cfg.varDecls with
    | Except.ok ct => Except.ok (ResolvedTool.http cfg.method ct cfg)
    | Except.error e => Except.error (ConstructionError.InvalidTemplate e)

/-- Bind every descriptor, failing fast on the first construction error. -/
def bindTools (connections : List (String × RemoteToolClient)) :
    List ToolDescriptor → Except ConstructionError Registry
  | [] => Except.ok []
  | d :: ds =>
    match resolveBackend connections d.backend, bindTools connections ds with
    | Except.ok r, Except.ok rest => Except.ok ((d.name, r) :: rest)
    | Except.error e, _ => Except.error e
    | Except.ok _, Except.error e => Except.error e

/-- `Registry.build`: fails on a duplicate tool name before binding. -/
def build (agent : AgentDefinition)
    (connections : List (String × RemoteToolClient)) :
    Except ConstructionError Registry :=
  match firstDup (agent.tools.map (fun d => d.name)) with
  | some n => Except.error (ConstructionError.DuplicateToolName n)
  | none => bindTools connections agent.tools

/-- `resolve(toolName)`: pure mapping lookup; unknown names surface as
`ToolNotFound`, never silently ignored. -/
def resolve (reg : Registry) (name : String) : Except ResolveError ResolvedTool :=
  match assoc name reg with
  | some t => Except.ok t
  | none => Except.error (ResolveError.ToolNotFound name)

/-! ## Execution Orchestrator (modelled from the spec, section 4.5)

Modelled from the spec: the model-turn loop of the missing
`app/services/agent_service.py`.  The language model is an external
collaborator: a function from the accumulated conversation to either a final
answer or a list of requested tool calls. -/

/-- One entry of the accumulated conversation. -/
inductive ConvEntry
  | systemMsg (text : String)
  | userMsg (text : String)
  | assistantToolCalls (calls : List ToolRequest)
  | toolResultMsg (toolName : String) (r : Except ToolFailure Value)
  | assistantFinal (text : String)

/-- The accumulated conversation fed to the model. -/
abbrev Conversation := List ConvEntry

/-- The model collaborator's reply on one turn. -/
inductive ModelResponse
  | finalAnswer (text : String)
  | toolCalls (calls : List ToolRequest)

/-- Terminal statuses of an execution. -/
inductive ExecStatus
  | Success
  | PartialFailure
  | Failed
  | TimedOut
deriving DecidableEq

/-- Result of the orchestrator loop. -/
structure LoopResult where
  status : ExecStatus
  turns : Nat
  finalOutput : Option String
deriving DecidableEq

/-- Whether a tool outcome succeeded. -/
def isOkResult : Except ToolFailure Value → Bool
  | Except.ok _ => true
  | Except.error _ => false

/-- Whether a tool outcome is an execution-fatal failure. -/
def isFatalResult : Except ToolFailure Value → Bool
  | Except.ok _ => false
  | Except.error e => fatalFailure e

/-- The bounded model-turn loop: each iteration calls the model; a final
answer terminates with `Success`; requested tool calls are dispatched, their
results folded back into the conversation, and the loop continues unless a
result is execution-fatal.  When the iteration budget is exhausted the status
is `PartialFailure` if any tool call succeeded along the way, else `Failed`. -/
def runLoop (modelFn : Conversation → ModelResponse)
    (execTool : ToolRequest → Except ToolFailure Value) :
    Nat → Conversation → Bool → Nat → LoopResult
  | 0, _, anySuccess, turns =>
    ⟨if anySuccess then ExecStatus.PartialFailure else ExecStatus.Failed, turns, none⟩
  | fuel + 1, conv, anySuccess, turns =>
    match modelFn conv with
    | ModelResponse.finalAnswer t => ⟨ExecStatus.Success, turns + 1, some t⟩
    | ModelResponse.toolCalls calls =>
      if (calls.map fun c => (c.toolName, execTool c)).any (fun r => isFatalResult r.2) then
        ⟨ExecStatus.Failed, turns + 1, none⟩
      else
        runLoop modelFn execTool fuel
          (conv ++ ConvEntry.assistantToolCalls calls ::
            (calls.map fun c => (c.toolName, execTool c)).map
              (fun r => ConvEntry.toolResultMsg r.1 r.2))
          (anySuccess || (calls.map fun c => (c.toolName, execTool c)).any
            (fun r => isOkResult r.2))
          (turns + 1)

/-- Execute an agent: run the loop from the system prompt and the input,
bounded by `maxIterations`. -/
def executeAgent (agent : AgentDefinition) (modelFn : Conversation → ModelResponse)
    (execTool : ToolRequest → Except ToolFailure Value) (input : String) : LoopResult :=
  runLoop modelFn execTool agent.settings.maxIterations
    [ConvEntry.systemMsg agent.systemPrompt, ConvEntry.userMsg input] false 0

/-! ## Front-end chat and agents pages (embedded from the sources)

`AgentChat.handleSend` and `AgentsPage.handleDeleteAgent` from the Next.js
front end.  Asynchronous request outcomes are passed explicitly. -/

/-- Message roles of the chat component. -/
inductive ChatRole
  | user
  | assistant
deriving DecidableEq

/-- A chat message as kept in the component state (timestamp omitted:
wall-clock time is not modelled). -/
structure ChatMessage where
  role : ChatRole
  content : String
  tokens : Option Nat
  duration : Option Nat
deriving DecidableEq

/-- The nested response payload read by the chat client. -/
structure OutputData where
  response : Option String
deriving DecidableEq

/-- Modelled from the spec: the execution result at the orchestrator
boundary (the `/api/agents/:id/execute` backend route is missing from the
sources) — a structured key-value output payload plus `tokensUsed`,
`durationMs` and `status` metadata, in the wire field names the front end
reads. -/
structure ExecResponse where
  output_data : Option OutputData
  tokens_used : Option Nat
  duration_ms : Option Nat
  status : Option String
deriving DecidableEq

/-- `data.output_data?.response || "No response"`: the fallback fires when
the payload or the response field is absent, or the response is the empty
string (falsy). -/
def responseText (data : ExecResponse) : String :=
  match data.output_data with
  | none => "No response"
  | some od =>
    match od.response with
    | none => "No response"
    | some r => if r = "" then "No response" else r

/-- The assistant message built from an execution response. -/
def assistantMessageOf (data : ExecResponse) : ChatMessage :=
  ⟨ChatRole.assistant, responseText data, data.tokens_used, data.duration_ms⟩

/-- The fixed error reply appended when the request fails. -/
def errorReplyMessage : ChatMessage :=
  ⟨ChatRole.assistant, "Sorry, I encountered an error. Please try again.", none, none⟩

/-- Whitespace trimming of the input, as JavaScript `trim()` does. -/
def trimText (s : String) : String :=
  String.mk (((s.data.dropWhile Char.isWhitespace).reverse.dropWhile
    Char.isWhitespace).reverse)

/-- The chat component state handled by `handleSend`. -/
structure ChatState where
  messages : List ChatMessage
  input : String
  isLoading : Bool
deriving DecidableEq

/-- Outcome of the `fetch` to `/api/agents/:id/execute`. -/
inductive FetchOutcome
  | ok (data : ExecResponse)
  | httpError
  | networkFailure
deriving DecidableEq

/-- Result of `handleSend`: the final component state and whether an
execution request was issued. -/
structure SendResult where
  state : ChatState
  requested : Bool
deriving DecidableEq

/-- `AgentChat.handleSend`: guarded on empty (trimmed) input or an in-flight
send; otherwise appends the user message, clears the input, issues the
request, and appends the assistant (or error) reply. -/
def handleSend (s : ChatState) (outcome : FetchOutcome) : SendResult :=
  if trimText s.input = "" ∨ s.isLoading = true then ⟨s, false⟩
  else
    let userMessage : ChatMessage := ⟨ChatRole.user, s.input, none, none⟩
    let reply : ChatMessage :=
      match outcome with
      | FetchOutcome.ok data => assistantMessageOf data
      | FetchOutcome.httpError => errorReplyMessage
      | FetchOutcome.networkFailure => errorReplyMessage
    ⟨⟨s.messages ++ [userMessage, reply], "", false⟩, true⟩

/-- An agent as displayed on the agents page. -/
structure AgentSummary where
  id : String
  name : String
deriving DecidableEq

/-- Outcome of the DELETE request. -/
inductive DeleteOutcome
  | ok
  | httpError
  | networkFailure
deriving DecidableEq

/-- Result of `handleDeleteAgent`: the displayed list and whether a DELETE
request was issued. -/
structure DeleteResult where
  agents : List AgentSummary
  requested : Bool
deriving DecidableEq

/-- `AgentsPage.handleDeleteAgent`: guarded by the confirmation dialog; the
agent is filtered out of the displayed list only on an ok response; a non-ok
response or a thrown request leaves the list unchanged. -/
def handleDeleteAgent (agents : List AgentSummary) (agentId : String)
    (confirmed : Bool) (outcome : DeleteOutcome) : DeleteResult :=
  if confirmed = false then ⟨agents, false⟩
  else
    match outcome with
    | DeleteOutcome.ok => ⟨agents.filter fun a => a.id != agentId, true⟩
    | DeleteOutcome.httpError => ⟨agents, true⟩
    | DeleteOutcome.networkFailure => ⟨agents, true⟩

/-! ## Concrete instances used by the witnesses -/

/-- The spec's scenario template: `https://api.example.com/tickets/(id)`. -/
def ticketTpl : String := "https://api.example.com/tickets/\x7b\x7bid\x7d\x7d"

/-- Schema of the scenario: one required number `id` with no default. -/
def ticketSchema : List VarDecl := [⟨"id", Kind.number, true, none⟩]

/-- Arguments of the scenario: `id = 42`. -/
def ticketArgs : List (String × Value) := [("id", Value.vNum 42)]

/-- The compiled scenario template. -/
def ticketCT : CompiledTemplate :=
  ⟨[Seg.lit "https://api.example.com/tickets/".data, Seg.var "id", Seg.lit []],
   ticketSchema, ["id"]⟩

/-- Counterexample template for C2: a single placeholder `x`. -/
def cexTpl : String := "\x7b\x7bx\x7d\x7d"

/-- Counterexample schema for C2: `x` is an optional number, no default. -/
def cexSchema : List VarDecl := [⟨"x", Kind.number, false, none⟩]

/-- Counterexample arguments for C2: `x` supplied as non-numeric text. -/
def cexArgs : List (String × Value) := [("x", Value.vStr "abc")]

/-- The compiled counterexample template. -/
def cexCT : CompiledTemplate := ⟨[Seg.lit [], Seg.var "x", Seg.lit []], cexSchema, []⟩

/-- Witness template for C3: `hi (x)`. -/
def missTpl : String := "hi \x7b\x7bx\x7d\x7d"

/-- Witness schema for C3: `x` required string, no default. -/
def missSchema : List VarDecl := [⟨"x", Kind.string, true, none⟩]

/-- The compiled C3 witness template. -/
def missCT : CompiledTemplate :=
  ⟨[Seg.lit "hi ".data, Seg.var "x", Seg.lit []], missSchema, ["x"]⟩

/-- Two demonstration tool requests for the dispatch witness. -/
def demoReqs : List ToolRequest := [⟨"alpha", []⟩, ⟨"beta", []⟩]

/-- Demonstration executor for the dispatch witness. -/
def demoExec (r : ToolRequest) : Except ToolFailure Value :=
  Except.ok (Value.vStr r.toolName)

/-- A connected remote client used by the C4/C5 witnesses. -/
def demoClient : RemoteToolClient :=
  ⟨"srv-1", ConnState.Connected, [("echo", ["text"])]⟩

/-- Arguments for the remote witnesses. -/
def demoRemoteArgs : List (String × Value) := [("text", Value.vStr "hi")]

/-- Settings with `maxIterations = 3` for the C6 witness. -/
def demoSettings : AgentSettings := ⟨3, 1000, 10000⟩

/-- Agent for the C6 witness. -/
def demoAgent : AgentDefinition := ⟨"you are a demo", [], demoSettings⟩

/-- A model collaborator that always requests one tool call. -/
def alwaysToolModel (_ : Conversation) : ModelResponse :=
  ModelResponse.toolCalls [⟨"echo", []⟩]

/-- A tool executor that always succeeds. -/
def alwaysOkExec (_ : ToolRequest) : Except ToolFailure Value :=
  Except.ok (Value.vStr "done")

/-- An agent with a duplicated tool name, for the C7 witness. -/
def dupAgent : AgentDefinition :=
  ⟨"dup", [⟨"t", ToolBackend.VectorSearchTool "c1"⟩,
           ⟨"t", ToolBackend.VectorSearchTool "c2"⟩], demoSettings⟩

/-- An agent with distinct tool names, for the C7 witness. -/
def okAgent : AgentDefinition :=
  ⟨"ok", [⟨"t", ToolBackend.VectorSearchTool "c1"⟩], demoSettings⟩

/-- The registry `build` produces for `okAgent`. -/
def okRegistry : Registry := [("t", ResolvedTool.vectorSearch "c1")]

/-- A boundary response for the C8 witness. -/
def demoResponse : ExecResponse :=
  ⟨some ⟨some "hello there"⟩, some 42, some 1200, some "Success"⟩

/-- A chat state ready to send, for the C8 witness. -/
def demoChatState : ChatState := ⟨[], "hi", false⟩

/-- Agents displayed in the C10 witness. -/
def demoAgents : List AgentSummary := [⟨"a1", "first"⟩, ⟨"a2", "second"⟩]

/-! ## Template-engine lemmas -/

/-- A successful `compile` keeps the schema and leaves no referenced
placeholder undeclared. -/
theorem compile_ok_spec (tpl : String) (schema : List VarDecl) (ct : CompiledTemplate)
    (hc : compile tpl schema = Except.ok ct) :
    ct.schema = schema ∧ firstUnknown schema (referencedVars ct.segs) = none := by
  unfold compile at hc
  cases hp : parseTemplate tpl.data with
  | none =>
    simp only [hp] at hc
    exact Except.noConfusion hc
  | some segs =>
    simp only [hp] at hc
    cases hu : firstUnknown schema (referencedVars segs) with
    | some n =>
      simp only [hu] at hc
      exact Except.noConfusion hc
    | none =>
      simp only [hu] at hc
      injection hc with h
      subst h
      exact ⟨rfl, hu⟩

/-- If `firstUnknown` finds nothing, every listed name is declared. -/
theorem firstUnknown_eq_none (schema : List VarDecl) :
    ∀ l, firstUnknown schema l = none →
      ∀ n ∈ l, (lookupVar schema n).isSome = true := by
  intro l
  induction l with
  | nil => intro _ n hn; cases hn
  | cons m ms ih =>
    intro h n hn
    unfold firstUnknown at h
    by_cases hm : (lookupVar schema m).isSome = true
    · rw [if_pos hm] at h
      rcases List.mem_cons.mp hn with rfl | hn2
      · exact hm
      · exact ih h n hn2
    · rw [if_neg hm] at h
      cases h

/-- If every listed name with a declared kind and a supplied value conforms,
the type check finds no mismatch. -/
theorem firstTypeMismatch_eq_none (schema : List VarDecl) (args : List (String × Value)) :
    ∀ l, (∀ n ∈ l, ∀ d, lookupVar schema n = some d →
        ∀ v, lookupArg args n = some v → conforms v d.kind = true) →
      firstTypeMismatch schema args l = none := by
  intro l
  induction l with
  | nil => intro _; rfl
  | cons m ms ih =>
    intro h
    have hms : ∀ n ∈ ms, ∀ d, lookupVar schema n = some d →
        ∀ v, lookupArg args n = some v → conforms v d.kind = true :=
      fun n hn => h n (List.mem_cons_of_mem m hn)
    unfold firstTypeMismatch
    cases hd : lookupVar schema m with
    | none => exact ih hms
    | some d =>
      cases ha : lookupArg args m with
      | none => exact ih hms
      | some v =>
        have hcv := h m (List.mem_cons_self m ms) d hd v ha
        simp only [hcv, if_true]
        exact ih hms

/-- A found variable declaration is in the schema and carries the name. -/
theorem lookupVar_spec (schema : List VarDecl) (n : String) (d : VarDecl)
    (h : lookupVar schema n = some d) : d ∈ schema ∧ d.name = n := by
  unfold lookupVar at h
  have hb0 := List.find?_some h
  have hb : (d.name == n) = true := hb0
  exact ⟨List.mem_of_find?_eq_some h, eq_of_beq hb⟩

/-- Under the conformance hypotheses, the missing-variable check passes. -/
theorem firstMissing_eq_none (schema : List VarDecl) (args : List (String × Value))
    (h1 : ∀ d ∈ schema, d.required = true →
      (∃ v, lookupArg args d.name = some v ∧ conforms v d.kind = true) ∨
        d.default.isSome = true) :
    firstMissing schema args = none := by
  unfold firstMissing
  have hf : schema.find?
      (fun d => d.required && d.default.isNone && (lookupArg args d.name).isNone) = none := by
    rw [List.find?_eq_none]
    intro d hd hp
    simp only [Bool.and_eq_true, Option.isNone_iff_eq_none] at hp
    obtain ⟨⟨hreq, hdef⟩, habs⟩ := hp
    rcases h1 d hd hreq with ⟨v, hv, _⟩ | hds
    · rw [hv] at habs; cases habs
    · rw [hdef] at hds; cases hds
  rw [hf]
  rfl

/-! ## Claim theorems -/

/-- C2 (amended): for every template, schema and arguments mapping such that
the template compiles against the schema, every required variable is either
present with a value of the declared kind or has a default, and every
supplied value for a variable referenced by the template has the declared
kind, `render` succeeds and every referenced placeholder is substituted by a
concrete value — no template placeholder remains in the output. -/
theorem render_succeeds_no_unresolved_placeholder
    (tpl : String) (schema : List VarDecl) (args : List (String × Value))
    (ct : CompiledTemplate)
    (hc : compile tpl schema = Except.ok ct)
    (h1 : ∀ d ∈ schema, d.required = true →
      (∃ v, lookupArg args d.name = some v ∧ conforms v d.kind = true) ∨
        d.default.isSome = true)
    (h2 : ∀ d ∈ schema, d.name ∈ referencedVars ct.segs →
      ∀ v, lookupArg args d.name = some v → conforms v d.kind = true) :
    ∃ out, render ct args = Except.ok out ∧
      ∀ n ∈ referencedVars ct.segs, ∃ v, resolveValue ct.schema args n = some v := by
  obtain ⟨hschema, hunk⟩ := compile_ok_spec tpl schema ct hc
  have hdecl : ∀ n ∈ referencedVars ct.segs, (lookupVar schema n).isSome = true :=
    firstUnknown_eq_none schema (referencedVars ct.segs) hunk
  have hmiss : firstMissing ct.schema args = none := by
    rw [hschema]; exact firstMissing_eq_none schema args h1
  have hty : firstTypeMismatch ct.schema args (referencedVars ct.segs) = none := by
    rw [hschema]
    apply firstTypeMismatch_eq_none
    intro n hn d hd v hv
    obtain ⟨hmem, hname⟩ := lookupVar_spec schema n d hd
    subst hname
    exact h2 d hmem hn v hv
  refine ⟨String.join (ct.segs.map (renderSeg ct.schema args)), ?_, ?_⟩
  · unfold render
    rw [hmiss, hty]
  · intro n hn
    have hs := hdecl n hn
    rw [← hschema] at hs
    obtain ⟨d, hd⟩ := Option.isSome_iff_exists.mp hs
    unfold resolveValue
    rw [hd]
    exact ⟨_, rfl⟩

/-- C2 witness: the spec's ticket scenario — the compiled URL template with
`id = 42` renders with every placeholder substituted. -/
theorem render_succeeds_no_unresolved_placeholder_witness :
    ∃ out, render ticketCT ticketArgs = Except.ok out ∧
      ∀ n ∈ referencedVars ticketCT.segs, ∃ v,
        resolveValue ticketCT.schema ticketArgs n = some v := by
  apply render_succeeds_no_unresolved_placeholder ticketTpl ticketSchema ticketArgs ticketCT rfl
  · intro d hd _
    have hde : d = ⟨"id", Kind.number, true, none⟩ := by
      simpa [ticketSchema] using hd
    subst hde
    exact Or.inl ⟨Value.vNum 42, rfl, rfl⟩
  · intro d hd _ v hv
    have hde : d = ⟨"id", Kind.number, true, none⟩ := by
      simpa [ticketSchema] using hd
    subst hde
    have hv2 : (some (Value.vNum 42) : Option Value) = some v := hv
    injection hv2 with hv3
    subst hv3
    rfl

/-- C2 counterexample: the claim as stated is false — with an optional
number variable `x` (no default) supplied as the non-numeric text "abc", the
template compiles, every required variable is satisfied, yet `render` fails
with `TypeMismatch` instead of succeeding. -/
theorem render_typeMismatch_counterexample :
    compile cexTpl cexSchema = Except.ok cexCT ∧
    requiredSatisfied cexSchema cexArgs = true ∧
    render cexCT cexArgs = Except.error (VError.TypeMismatch "x") :=
  ⟨rfl, rfl, rfl⟩

/-- C3: for every compiled template and every arguments mapping that omits
some required variable that has no default, `render` fails with the
`MissingRequiredVariable` error and does not produce a rendered string. -/
theorem render_missing_required_fails
    (tpl : String) (schema : List VarDecl) (args : List (String × Value))
    (ct : CompiledTemplate)
    (hc : compile tpl schema = Except.ok ct)
    (h : ∃ d ∈ schema, d.required = true ∧ d.default = none ∧
      lookupArg args d.name = none) :
    (∃ m, render ct args = Except.error (VError.MissingRequiredVariable m)) ∧
      ∀ s, render ct args ≠ Except.ok s := by
  obtain ⟨hschema, _⟩ := compile_ok_spec tpl schema ct hc
  have hfind : (schema.find?
      (fun d => d.required && d.default.isNone && (lookupArg args d.name).isNone)).isSome
      = true := by
    rw [List.find?_isSome]
    obtain ⟨d, hd, hreq, hdef, habs⟩ := h
    refine ⟨d, hd, ?_⟩
    simp [hreq, hdef, habs]
  obtain ⟨d, hd⟩ := Option.isSome_iff_exists.mp hfind
  have hmiss : firstMissing ct.schema args = some d.name := by
    rw [hschema]
    unfold firstMissing
    rw [hd]
    rfl
  constructor
  · refine ⟨d.name, ?_⟩
    unfold render
    rw [hmiss]
  · intro s hs
    unfold render at hs
    rw [hmiss] at hs
    cases hs

/-- C3 witness: rendering `hi (x)` with `x` required, defaultless and absent
fails with `MissingRequiredVariable`. -/
theorem render_missing_required_fails_witness :
    (∃ m, render missCT [] = Except.error (VError.MissingRequiredVariable m)) ∧
      ∀ s, render missCT [] ≠ Except.ok s :=
  render_missing_required_fails missTpl missSchema [] missCT rfl
    ⟨⟨"x", Kind.string, true, none⟩, by simp [missSchema], rfl, rfl, rfl⟩

/-! ## Concurrent-dispatch lemmas and claim C1 -/

/-- In the arrivals of a duplicate-free completion order, the result keyed by
a completed request index is that request's outcome. -/
theorem assoc_completeInOrder (reqs : List ToolRequest)
    (exec : ToolRequest → Except ToolFailure Value) :
    ∀ (order : List Nat) (i : Nat) (r : ToolRequest),
      order.Nodup → i ∈ order → reqs[i]? = some r →
      assoc i (completeInOrder reqs exec order) = some (exec r) := by
  intro order
  induction order with
  | nil => intro i r _ hmem _; cases hmem
  | cons j os ih =>
    intro i r hnd hmem hget
    have hnd2 : os.Nodup := (List.nodup_cons.mp hnd).2
    unfold completeInOrder
    rw [List.filterMap_cons]
    rcases List.mem_cons.mp hmem with heq | hmem2
    · subst heq
      rw [hget]
      simp [assoc]
    · have hj : j ∉ os := (List.nodup_cons.mp hnd).1
      have hne : j ≠ i := fun h => hj (h ▸ hmem2)
      cases hjg : reqs[j]? with
      | none =>
        simp only [hjg, Option.map_none']
        exact ih i r hnd2 hmem2 hget
      | some rj =>
        simp only [hjg, Option.map_some']
        unfold assoc
        rw [if_neg hne]
        exact ih i r hnd2 hmem2 hget

/-- C1: for every set of tool calls requested in one model turn and every
possible completion order of the concurrently dispatched calls (any
permutation of the request indices), the fan-in re-attaches the results in
exactly the order the model requested the calls. -/
theorem toolResults_follow_request_order (reqs : List ToolRequest)
    (exec : ToolRequest → Except ToolFailure Value) (order : List Nat)
    (h : order.Perm (List.range reqs.length)) :
    dispatchConcurrent reqs exec order = reqs.map fun r => some (exec r) := by
  have hnd : order.Nodup := h.symm.nodup (List.nodup_range reqs.length)
  apply List.ext_getElem
  · simp [dispatchConcurrent]
  · intro i h1 h2
    have hi : i < reqs.length := by simpa [dispatchConcurrent] using h1
    have hmem : i ∈ order := h.mem_iff.mpr (List.mem_range.mpr hi)
    have hget := List.getElem?_eq_getElem hi
    simp only [dispatchConcurrent, List.getElem_map, List.getElem_range]
    exact assoc_completeInOrder reqs exec order i _ hnd hmem hget

/-- C1 witness: two requested calls completing in reversed order are
re-attached in request order. -/
theorem toolResults_follow_request_order_witness :
    dispatchConcurrent demoReqs demoExec [1, 0] =
      demoReqs.map fun r => some (demoExec r) :=
  toolResults_follow_request_order demoReqs demoExec [1, 0] (by decide)

/-! ## Remote-tool-client claims C4 and C5 -/

/-- C4: a `Connected` client whose `invoke` times out returns the `Timeout`
error and transitions to `Degraded`, and any subsequent `invoke` on that
client first performs a reconnection — its event trace starts by entering
`Handshaking` — before issuing any request. -/
theorem invoke_timeout_degrades_then_reconnects
    (c : RemoteToolClient) (name : String) (args : List (String × Value))
    (connOut : ConnectOutcome) (schema : InputSchema)
    (h1 : c.state = ConnState.Connected)
    (h2 : assoc name c.capabilities = some schema)
    (h3 : validateArgs schema args = true) :
    (invoke c name args connOut WireReply.timeout).result =
        Except.error ToolFailure.Timeout ∧
      (invoke c name args connOut WireReply.timeout).client.state =
        ConnState.Degraded ∧
      ∀ name2 args2 connOut2 reply2, ∃ rest,
        (invoke (invoke c name args connOut WireReply.timeout).client
            name2 args2 connOut2 reply2).events =
          ClientEvent.entered ConnState.Handshaking :: rest := by
  have he : invoke c name args connOut WireReply.timeout =
      ⟨Except.error ToolFailure.Timeout, { c with state := ConnState.Degraded },
       [ClientEvent.requestSent, ClientEvent.entered ConnState.Degraded]⟩ := by
    unfold invoke
    rw [if_pos h1]
    unfold invokeConnected
    simp only [h2]
    rw [if_pos h3]
  rw [he]
  refine ⟨rfl, rfl, ?_⟩
  intro name2 args2 connOut2 reply2
  cases connOut2 with
  | ok caps => exact ⟨_, rfl⟩
  | authRefused => exact ⟨_, rfl⟩
  | transportFailed => exact ⟨_, rfl⟩

/-- C4 witness: the connected demo client times out on `echo`, degrades, and
its next call starts with a handshake. -/
theorem invoke_timeout_degrades_then_reconnects_witness :
    (invoke demoClient "echo" demoRemoteArgs ConnectOutcome.authRefused
        WireReply.timeout).result = Except.error ToolFailure.Timeout ∧
      (invoke demoClient "echo" demoRemoteArgs ConnectOutcome.authRefused
        WireReply.timeout).client.state = ConnState.Degraded ∧
      ∀ name2 args2 connOut2 reply2, ∃ rest,
        (invoke (invoke demoClient "echo" demoRemoteArgs ConnectOutcome.authRefused
              WireReply.timeout).client name2 args2 connOut2 reply2).events =
          ClientEvent.entered ConnState.Handshaking :: rest :=
  invoke_timeout_degrades_then_reconnects demoClient "echo" demoRemoteArgs
    ConnectOutcome.authRefused ["text"] rfl rfl rfl

/-- C5: a `Connected` client whose `invoke` is answered by an
application-level `toolError` stays `Connected` (the client is unchanged) and
the error is returned as a `ToolError` result — classified neither as a
connection fault nor as fatal to the execution. -/
theorem invoke_toolError_keeps_connected
    (c : RemoteToolClient) (name : String) (args : List (String × Value))
    (connOut : ConnectOutcome) (m : String) (schema : InputSchema)
    (h1 : c.state = ConnState.Connected)
    (h2 : assoc name c.capabilities = some schema)
    (h3 : validateArgs schema args = true) :
    (invoke c name args connOut (WireReply.toolError m)).result =
        Except.error (ToolFailure.ToolError m) ∧
      (invoke c name args connOut (WireReply.toolError m)).client = c ∧
      (invoke c name args connOut (WireReply.toolError m)).client.state =
        ConnState.Connected ∧
      isConnectionFault (ToolFailure.ToolError m) = false ∧
      fatalFailure (ToolFailure.ToolError m) = false := by
  have he : invoke c name args connOut (WireReply.toolError m) =
      ⟨Except.error (ToolFailure.ToolError m), c, [ClientEvent.requestSent]⟩ := by
    unfold invoke
    rw [if_pos h1]
    unfold invokeConnected
    simp only [h2]
    rw [if_pos h3]
  rw [he]
  exact ⟨rfl, rfl, h1, rfl, rfl⟩

/-- C5 witness: a rate-limit `toolError` on the connected demo client leaves
it `Connected` and yields a recoverable `ToolError`. -/
theorem invoke_toolError_keeps_connected_witness :
    (invoke demoClient "echo" demoRemoteArgs ConnectOutcome.authRefused
        (WireReply.toolError "rate limited")).result =
        Except.error (ToolFailure.ToolError "rate limited") ∧
      (invoke demoClient "echo" demoRemoteArgs ConnectOutcome.authRefused
        (WireReply.toolError "rate limited")).client = demoClient ∧
      (invoke demoClient "echo" demoRemoteArgs ConnectOutcome.authRefused
        (WireReply.toolError "rate limited")).client.state = ConnState.Connected ∧
      isConnectionFault (ToolFailure.ToolError "rate limited") = false ∧
      fatalFailure (ToolFailure.ToolError "rate limited") = false :=
  invoke_toolError_keeps_connected demoClient "echo" demoRemoteArgs
    ConnectOutcome.authRefused "rate limited" ["text"] rfl rfl rfl

/-! ## Orchestrator lemmas and claim C6 -/

/-- If every requested call succeeds, no dispatched result is fatal. -/
theorem results_fatal_false (execTool : ToolRequest → Except ToolFailure Value)
    (cs : List ToolRequest) (hok : ∀ c ∈ cs, isOkResult (execTool c) = true) :
    (cs.map fun c => (c.toolName, execTool c)).any (fun r => isFatalResult r.2) = false := by
  rw [List.any_eq_false]
  intro r hr
  obtain ⟨c, hc, hrc⟩ := List.mem_map.mp hr
  subst hrc
  have h1 := hok c hc
  cases he : execTool c with
  | ok v => simp [isFatalResult, he]
  | error e => rw [he] at h1; exact absurd h1 (by simp [isOkResult])

/-- If at least one call is requested and every call succeeds, some
dispatched result succeeded. -/
theorem results_any_ok (execTool : ToolRequest → Except ToolFailure Value)
    (cs : List ToolRequest) (hne : cs ≠ [])
    (hok : ∀ c ∈ cs, isOkResult (execTool c) = true) :
    (cs.map fun c => (c.toolName, execTool c)).any (fun r => isOkResult r.2) = true := by
  rw [List.any_eq_true]
  obtain ⟨c, hc⟩ := List.exists_mem_of_ne_nil cs hne
  exact ⟨(c.toolName, execTool c), List.mem_map.mpr ⟨c, hc, rfl⟩, hok c hc⟩

/-- With a model that always requests successful tool calls, the loop runs
its whole remaining budget and ends `PartialFailure` once a success has been
seen. -/
theorem runLoop_all_success (modelFn : Conversation → ModelResponse)
    (execTool : ToolRequest → Except ToolFailure Value)
    (hm : ∀ conv, ∃ cs, modelFn conv = ModelResponse.toolCalls cs ∧ cs ≠ [] ∧
      ∀ c ∈ cs, isOkResult (execTool c) = true) :
    ∀ (fuel : Nat) (conv : Conversation) (turns : Nat),
      runLoop modelFn execTool fuel conv true turns =
        ⟨ExecStatus.PartialFailure, turns + fuel, none⟩ := by
  intro fuel
  induction fuel with
  | zero => intro conv turns; rfl
  | succ n ih =>
    intro conv turns
    obtain ⟨cs, hcs, _, hok⟩ := hm conv
    have hfatal := results_fatal_false execTool cs hok
    simp only [runLoop, hcs, hfatal, Bool.false_eq_true, if_false, Bool.true_or]
    rw [ih]
    have ht : turns + 1 + n = turns + (n + 1) := by omega
    rw [ht]

/-- The first iteration from a fresh loop establishes a success, and the
loop then exhausts its budget ending `PartialFailure`. -/
theorem runLoop_first_success (modelFn : Conversation → ModelResponse)
    (execTool : ToolRequest → Except ToolFailure Value)
    (hm : ∀ conv, ∃ cs, modelFn conv = ModelResponse.toolCalls cs ∧ cs ≠ [] ∧
      ∀ c ∈ cs, isOkResult (execTool c) = true)
    (fuel : Nat) (conv : Conversation) (turns : Nat) :
    runLoop modelFn execTool (fuel + 1) conv false turns =
      ⟨ExecStatus.PartialFailure, turns + fuel + 1, none⟩ := by
  obtain ⟨cs, hcs, hne, hok⟩ := hm conv
  have hfatal := results_fatal_false execTool cs hok
  have hany := results_any_ok execTool cs hne hok
  simp only [runLoop, hcs, hfatal, Bool.false_eq_true, if_false, hany, Bool.or_true]
  rw [runLoop_all_success modelFn execTool hm fuel _ (turns + 1)]
  have ht : turns + 1 + fuel = turns + fuel + 1 := by omega
  rw [ht]

/-- C6: for every agent with `maxIterations = 3` and every model
collaborator that on each turn requests at least one tool call that always
succeeds, the loop runs exactly 3 iterations and terminates with status
`PartialFailure`, not `Failed`. -/
theorem loop_maxIterations_partialFailure
    (agent : AgentDefinition) (modelFn : Conversation → ModelResponse)
    (execTool : ToolRequest → Except ToolFailure Value) (input : String)
    (hmax : agent.settings.maxIterations = 3)
    (hm : ∀ conv, ∃ cs, modelFn conv = ModelResponse.toolCalls cs ∧ cs ≠ [] ∧
      ∀ c ∈ cs, isOkResult (execTool c) = true) :
    executeAgent agent modelFn execTool input =
      ⟨ExecStatus.PartialFailure, 3, none⟩ := by
  unfold executeAgent
  rw [hmax]
  exact runLoop_first_success modelFn execTool hm 2 _ 0

/-- C6 witness: the demo agent with the always-tool-calling model and the
always-succeeding executor runs 3 turns and ends `PartialFailure`. -/
theorem loop_maxIterations_partialFailure_witness :
    executeAgent demoAgent alwaysToolModel alwaysOkExec "go" =
      ⟨ExecStatus.PartialFailure, 3, none⟩ :=
  loop_maxIterations_partialFailure demoAgent alwaysToolModel alwaysOkExec "go" rfl
    (fun _ => ⟨[⟨"echo", []⟩], rfl, by simp, fun _ _ => rfl⟩)

/-! ## Registry lemmas and claim C7 -/

/-- `firstDup` finds nothing exactly on duplicate-free name lists. -/
theorem firstDup_eq_none_iff : ∀ l : List String, firstDup l = none ↔ l.Nodup := by
  intro l
  induction l with
  | nil => simp [firstDup]
  | cons n ns ih =>
    unfold firstDup
    by_cases h : n ∈ ns
    · simp [h, List.nodup_cons]
    · simp [h, ih, List.nodup_cons]

/-- Successful binding preserves the declared tool names as registry keys. -/
theorem bindTools_ok_keys (connections : List (String × RemoteToolClient)) :
    ∀ (ds : List ToolDescriptor) (reg : Registry),
      bindTools connections ds = Except.ok reg →
      reg.map (fun p => p.1) = ds.map (fun d => d.name) := by
  intro ds
  induction ds with
  | nil =>
    intro reg h
    injection h with h
    subst h
    rfl
  | cons d ds ih =>
    intro reg h
    unfold bindTools at h
    cases hr : resolveBackend connections d.backend with
    | error e =>
      simp only [hr] at h
      exact Except.noConfusion h
    | ok r =>
      cases hb : bindTools connections ds with
      | error e =>
        simp only [hr, hb] at h
        exact Except.noConfusion h
      | ok rest =>
        simp only [hr, hb] at h
        injection h with h
        subst h
        simp [ih rest hb]

/-- A key absent from an association list looks up to nothing. -/
theorem assoc_eq_none {α β : Type} [DecidableEq α] (key : α) :
    ∀ l : List (α × β), key ∉ l.map (fun p => p.1) → assoc key l = none := by
  intro l
  induction l with
  | nil => intro _; rfl
  | cons p ps ih =>
    intro h
    cases p with
    | mk k v =>
      simp only [List.map_cons, List.mem_cons] at h
      push_neg at h
      unfold assoc
      rw [if_neg (fun hk => h.1 hk.symm)]
      exact ih h.2

/-- C7: an agent whose tools list carries a duplicate tool name makes
`Registry.build` fail with a construction error and produce no registry; on a
built registry, `resolve` on a name outside the tools list returns
`ToolNotFound` rather than silently ignoring it. -/
theorem registry_duplicate_and_toolNotFound :
    (∀ (agent : AgentDefinition) (connections : List (String × RemoteToolClient)),
      ¬ (agent.tools.map (fun d => d.name)).Nodup →
        ∃ n, build agent connections =
          Except.error (ConstructionError.DuplicateToolName n)) ∧
    (∀ (agent : AgentDefinition) (connections : List (String × RemoteToolClient))
        (reg : Registry) (name : String),
      build agent connections = Except.ok reg →
        name ∉ agent.tools.map (fun d => d.name) →
        resolve reg name = Except.error (ResolveError.ToolNotFound name)) := by
  constructor
  · intro agent connections hdup
    cases hfd : firstDup (agent.tools.map fun d => d.name) with
    | none => exact absurd ((firstDup_eq_none_iff _).mp hfd) hdup
    | some n =>
      refine ⟨n, ?_⟩
      unfold build
      rw [hfd]
  · intro agent connections reg name hb hname
    unfold build at hb
    cases hfd : firstDup (agent.tools.map fun d => d.name) with
    | some n =>
      simp only [hfd] at hb
      exact Except.noConfusion hb
    | none =>
      simp only [hfd] at hb
      have hkeys := bindTools_ok_keys connections agent.tools reg hb
      have hnone : assoc name reg = none :=
        assoc_eq_none name reg (by rw [hkeys]; exact hname)
      unfold resolve
      rw [hnone]

/-- C7 witness: a duplicated tool name fails construction; resolving an
unregistered name on a built registry reports `ToolNotFound`. -/
theorem registry_duplicate_and_toolNotFound_witness :
    (∃ n, build dupAgent [] =
        Except.error (ConstructionError.DuplicateToolName n)) ∧
      resolve okRegistry "missing" =
        Except.error (ResolveError.ToolNotFound "missing") :=
  ⟨(registry_duplicate_and_toolNotFound).1 dupAgent [] (by decide),
   (registry_duplicate_and_toolNotFound).2 okAgent [] okRegistry "missing" rfl (by decide)⟩

/-! ## Front-end claims C8, C9 and C10 -/

/-- C8: on a successful send, the chat client builds the assistant message
from exactly the boundary contract — the structured output payload and the
token and duration metadata; two boundary responses agreeing on those fields
yield the same assistant message. -/
theorem chat_consumes_boundary_contract :
    (∀ (s : ChatState) (data : ExecResponse),
      trimText s.input ≠ "" → s.isLoading = false →
      handleSend s (FetchOutcome.ok data) =
        ⟨⟨s.messages ++ [⟨ChatRole.user, s.input, none, none⟩,
            ⟨ChatRole.assistant, responseText data, data.tokens_used, data.duration_ms⟩],
          "", false⟩, true⟩) ∧
    (∀ d1 d2 : ExecResponse,
      d1.output_data = d2.output_data → d1.tokens_used = d2.tokens_used →
      d1.duration_ms = d2.duration_ms →
      assistantMessageOf d1 = assistantMessageOf d2) := by
  constructor
  · intro s data h1 h2
    unfold handleSend
    rw [if_neg (fun hor => hor.elim h1 (fun hl => by rw [h2] at hl; exact Bool.noConfusion hl))]
    rfl
  · intro d1 d2 h1 h2 h3
    unfold assistantMessageOf responseText
    rw [h1, h2, h3]

/-- C8 witness: a concrete boundary response is consumed into the assistant
message through the response payload and the token/duration metadata. -/
theorem chat_consumes_boundary_contract_witness :
    handleSend demoChatState (FetchOutcome.ok demoResponse) =
      ⟨⟨demoChatState.messages ++ [⟨ChatRole.user, demoChatState.input, none, none⟩,
          ⟨ChatRole.assistant, responseText demoResponse, demoResponse.tokens_used,
            demoResponse.duration_ms⟩], "", false⟩, true⟩ :=
  (chat_consumes_boundary_contract).1 demoChatState demoResponse (by decide) rfl

/-- C9: when the chat input is empty after trimming or a send is already in
flight, `handleSend` issues no execution request and leaves the whole
component state — message list and input text included — unchanged. -/
theorem handleSend_guard_no_request (s : ChatState) (outcome : FetchOutcome)
    (h : trimText s.input = "" ∨ s.isLoading = true) :
    handleSend s outcome = ⟨s, false⟩ := by
  unfold handleSend
  rw [if_pos h]

/-- C9 witness: a loading chat state ignores `handleSend` entirely. -/
theorem handleSend_guard_no_request_witness :
    handleSend ⟨[], "hello", true⟩ FetchOutcome.httpError =
      ⟨⟨[], "hello", true⟩, false⟩ :=
  handleSend_guard_no_request ⟨[], "hello", true⟩ FetchOutcome.httpError (Or.inr rfl)

/-- C10: `handleDeleteAgent` removes exactly the agents with the given id
from the displayed list when the DELETE request is confirmed and returns ok;
when the response is not ok, the request throws, or the deletion is not
confirmed, the displayed list is unchanged. -/
theorem handleDeleteAgent_atomic :
    (∀ (agents : List AgentSummary) (agentId : String),
      handleDeleteAgent agents agentId true DeleteOutcome.ok =
        ⟨agents.filter fun a => a.id != agentId, true⟩ ∧
      ∀ a, a ∈ (handleDeleteAgent agents agentId true DeleteOutcome.ok).agents ↔
        a ∈ agents ∧ a.id ≠ agentId) ∧
    (∀ (agents : List AgentSummary) (agentId : String) (confirmed : Bool)
        (outcome : DeleteOutcome),
      outcome ≠ DeleteOutcome.ok ∨ confirmed = false →
      (handleDeleteAgent agents agentId confirmed outcome).agents = agents) := by
  constructor
  · intro agents agentId
    refine ⟨rfl, ?_⟩
    intro a
    show a ∈ agents.filter (fun a => a.id != agentId) ↔ a ∈ agents ∧ a.id ≠ agentId
    simp [List.mem_filter, bne_iff_ne]
  · intro agents agentId confirmed outcome h
    cases confirmed with
    | false => rfl
    | true =>
      rcases h with h | h
      · cases outcome with
        | ok => exact absurd rfl h
        | httpError => rfl
        | networkFailure => rfl
      · exact Bool.noConfusion h

/-- C10 witness: deleting agent `a1` on an ok response filters exactly it
out; a failing response leaves the list unchanged. -/
theorem handleDeleteAgent_atomic_witness :
    handleDeleteAgent demoAgents "a1" true DeleteOutcome.ok =
        ⟨demoAgents.filter fun a => a.id != "a1", true⟩ ∧
      (handleDeleteAgent demoAgents "a1" true DeleteOutcome.httpError).agents =
        demoAgents :=
  ⟨(handleDeleteAgent_atomic.1 demoAgents "a1").1,
   handleDeleteAgent_atomic.2 demoAgents "a1" true DeleteOutcome.httpError
     (Or.inl (by decide))⟩

end AgentForge
